import Mathlib

/-!
Verification of the PTP/IP client core: packet codec, packet-type
registries, the Fuji packet-type folding, the transaction-id routine and
the generic handshake functions. Definitions are translated from the Go
sources; parts of the repository that are only exercised by the sources
here (the wire marshaller and the transaction-id increment) are modelled
from the specification and pinned by the byte-exact test vectors.
-/

namespace PtpIp

/-! ### Little-endian primitives -/

/-- Little-endian byte emission: `toLE w n` is the `w`-byte little-endian
representation of `n` (truncating above `256 ^ w`). -/
def toLE : Nat → Nat → List Nat
  | 0, _ => []
  | w + 1, n => n % 256 :: toLE w (n / 256)

/-- Assemble a little-endian byte list into a number. -/
def fromLE : List Nat → Nat
  | [] => 0
  | b :: bs => b + 256 * fromLE bs

/-- Read a `w`-byte little-endian number from the front of a byte list,
returning the value and the remaining bytes; `none` if too short. -/
def readLEN : Nat → List Nat → Option (Nat × List Nat)
  | 0, bs => some (0, bs)
  | _ + 1, [] => none
  | w + 1, b :: bs => (readLEN w bs).map (fun x => (b + 256 * x.1, x.2))

/-- Read exactly `n` raw bytes from the front of a byte list. -/
def readN (n : Nat) (bs : List Nat) : Option (List Nat × List Nat) :=
  if n ≤ bs.length then some (bs.take n, bs.drop n) else none

/-- Modelled from the spec: strings are UTF-16LE sequences terminated by a
single 16-bit 0x0000 that is part of the frame. A string value is carried
as its list of 16-bit code units. -/
def encodeString : List Nat → List Nat
  | [] => [0, 0]
  | u :: us => u % 256 :: u / 256 % 256 :: encodeString us

/-- Modelled from the spec: read little-endian 16-bit units until 0x0000;
`none` when no terminator is found within the frame (MalformedString). -/
def parseString : List Nat → Option (List Nat × List Nat)
  | b0 :: b1 :: rest =>
    if b0 + 256 * b1 = 0 then some ([], rest)
    else (parseString rest).map (fun x => ((b0 + 256 * b1) :: x.1, x.2))
  | _ => none

/-! ### Packet-type constants (src packet catalog) -/

def PKT_InitCommandRequest : Nat := 0x00000001
def PKT_InitCommandAck : Nat := 0x00000002
def PKT_InitEventRequest : Nat := 0x00000003
def PKT_InitEventAck : Nat := 0x00000004
def PKT_InitFail : Nat := 0x00000005
def PKT_OperationRequest : Nat := 0x00000006
def PKT_OperationResponse : Nat := 0x00000007
def PKT_Event : Nat := 0x00000008
def PKT_StartData : Nat := 0x00000009
def PKT_Data : Nat := 0x0000000A
def PKT_Cancel : Nat := 0x0000000B
def PKT_EndData : Nat := 0x0000000C
def PKT_ProbeRequest : Nat := 0x0000000D
def PKT_ProbeResponse : Nat := 0x0000000E

def DP_NoDataOrDataIn : Nat := 0x00000001
def DP_DataOut : Nat := 0x00000002
def DP_Unknown : Nat := 0x00000003

def FR_FailRejectedInitiator : Nat := 0x00000001
def FR_FailBusy : Nat := 0x00000002
def FR_FailUnspecified : Nat := 0x00000003

/-- Modelled from the spec: the Fuji vendor-extended failure reason
DeviceBusy; its wire value is declared outside the sources given, only its
use in ReasonAsError is present. Any value distinct from the three base
reasons works; theorems over it are stated for arbitrary such values. -/
def FR_Fuji_DeviceBusy : Nat := 0x00002019

/-- Modelled from the spec: the Fuji vendor-extended failure reason
InvalidParameter, as for DeviceBusy. -/
def FR_Fuji_InvalidParameter : Nat := 0x0000201D

/-! ### Packets

A tagged sum over the packet kinds of the catalog, fields exactly as the
Go structs declare them (uuid.UUID is 16 raw bytes; strings are UTF-16
unit lists; all integers little-endian on the wire). -/

inductive Packet where
  | initCommandRequest (guid : List Nat) (friendlyName : List Nat) (protocolVersion : Nat)
  | initCommandAck (connectionNumber : Nat) (responderGUID : List Nat)
      (responderFriendlyName : List Nat) (responderProtocolVersion : Nat)
  | initEventRequest (connectionNumber : Nat)
  | initEventAck
  | initFail (reason : Nat)
  | operationRequest (dataPhaseInfo : Nat) (operationCode : Nat) (transactionId : Nat)
      (p1 p2 p3 p4 p5 : Nat)
  | operationResponse (responseCode : Nat) (transactionId : Nat) (p1 p2 p3 p4 p5 : Nat)
  | event (eventCode : Nat) (transactionId : Nat) (p1 p2 p3 : Nat)
  | startData (transactionId : Nat) (totalDataLength : Nat)
  | dataPkt (transactionId : Nat) (payload : List Nat)
  | endData (transactionId : Nat) (payload : List Nat)
  | cancel (transactionId : Nat)
  | probeRequest
  | probeResponse
  deriving DecidableEq, Repr

/-- PacketType tag of each packet kind, as in the src catalog. -/
def packetTypeCode : Packet → Nat
  | .initCommandRequest _ _ _ => PKT_InitCommandRequest
  | .initCommandAck _ _ _ _ => PKT_InitCommandAck
  | .initEventRequest _ => PKT_InitEventRequest
  | .initEventAck => PKT_InitEventAck
  | .initFail _ => PKT_InitFail
  | .operationRequest _ _ _ _ _ _ _ _ => PKT_OperationRequest
  | .operationResponse _ _ _ _ _ _ _ => PKT_OperationResponse
  | .event _ _ _ _ _ => PKT_Event
  | .startData _ _ => PKT_StartData
  | .dataPkt _ _ => PKT_Data
  | .cancel _ => PKT_Cancel
  | .endData _ _ => PKT_EndData
  | .probeRequest => PKT_ProbeRequest
  | .probeResponse => PKT_ProbeResponse

/-- Modelled from the spec: the payload bytes of a packet (the frame after
the 8-byte header): fixed little-endian fields in declaration order with
strings embedded as UTF-16LE plus a 16-bit null, trailing opaque bytes
last. The layout of each kind follows the src struct declarations; the
byte-exact test vectors of TestClient_sendPacket and
TestClient_readRawResponse pin it. -/
def packetBody : Packet → List Nat
  | .initCommandRequest g fn pv => g ++ encodeString fn ++ toLE 4 pv
  | .initCommandAck cn g fn pv => toLE 4 cn ++ g ++ encodeString fn ++ toLE 4 pv
  | .initEventRequest cn => toLE 4 cn
  | .initEventAck => []
  | .initFail r => toLE 4 r
  | .operationRequest dpi oc tid a b c d e =>
      toLE 4 dpi ++ toLE 2 oc ++ toLE 4 tid ++
        toLE 4 a ++ toLE 4 b ++ toLE 4 c ++ toLE 4 d ++ toLE 4 e
  | .operationResponse rc tid a b c d e =>
      toLE 2 rc ++ toLE 4 tid ++ toLE 4 a ++ toLE 4 b ++ toLE 4 c ++ toLE 4 d ++ toLE 4 e
  | .event ec tid a b c => toLE 2 ec ++ toLE 4 tid ++ toLE 4 a ++ toLE 4 b ++ toLE 4 c
  | .startData tid len => toLE 4 tid ++ toLE 8 len
  | .dataPkt tid pl => toLE 4 tid ++ pl
  | .endData tid pl => toLE 4 tid ++ pl
  | .cancel tid => toLE 4 tid
  | .probeRequest => []
  | .probeResponse => []

/-- Modelled from the spec: emit a full wire frame, an 8-byte header
holding the total frame length and the packet type (both little-endian
32-bit) followed by the payload. -/
def encodePacket (p : Packet) : List Nat :=
  toLE 4 (8 + (packetBody p).length) ++ toLE 4 (packetTypeCode p) ++ packetBody p

/-- String well-formedness: UTF-16 code units, none equal to the null
terminator. -/
def stringWF (us : List Nat) : Prop := ∀ u ∈ us, u ≠ 0 ∧ u < 2 ^ 16

/-- Byte well-formedness. -/
def bytesWF (bs : List Nat) : Prop := ∀ b ∈ bs, b < 2 ^ 8

/-- Field invariants each Go packet value satisfies by construction: every
fixed integer field fits its declared width, GUIDs are 16 bytes, strings
hold non-null 16-bit units, and the whole frame length fits the 32-bit
Length header field. -/
def Packet.wf : Packet → Prop
  | .initCommandRequest g fn pv =>
      g.length = 16 ∧ bytesWF g ∧ stringWF fn ∧ pv < 2 ^ 32 ∧
        8 + (packetBody (.initCommandRequest g fn pv)).length < 2 ^ 32
  | .initCommandAck cn g fn pv =>
      cn < 2 ^ 32 ∧ g.length = 16 ∧ bytesWF g ∧ stringWF fn ∧ pv < 2 ^ 32 ∧
        8 + (packetBody (.initCommandAck cn g fn pv)).length < 2 ^ 32
  | .initEventRequest cn => cn < 2 ^ 32
  | .initEventAck => True
  | .initFail r => r < 2 ^ 32
  | .operationRequest dpi oc tid a b c d e =>
      dpi < 2 ^ 32 ∧ oc < 2 ^ 16 ∧ tid < 2 ^ 32 ∧
        a < 2 ^ 32 ∧ b < 2 ^ 32 ∧ c < 2 ^ 32 ∧ d < 2 ^ 32 ∧ e < 2 ^ 32
  | .operationResponse rc tid a b c d e =>
      rc < 2 ^ 16 ∧ tid < 2 ^ 32 ∧
        a < 2 ^ 32 ∧ b < 2 ^ 32 ∧ c < 2 ^ 32 ∧ d < 2 ^ 32 ∧ e < 2 ^ 32
  | .event ec tid a b c =>
      ec < 2 ^ 16 ∧ tid < 2 ^ 32 ∧ a < 2 ^ 32 ∧ b < 2 ^ 32 ∧ c < 2 ^ 32
  | .startData tid len => tid < 2 ^ 32 ∧ len < 2 ^ 64
  | .dataPkt tid pl =>
      tid < 2 ^ 32 ∧ bytesWF pl ∧ 8 + (packetBody (.dataPkt tid pl)).length < 2 ^ 32
  | .endData tid pl =>
      tid < 2 ^ 32 ∧ bytesWF pl ∧ 8 + (packetBody (.endData tid pl)).length < 2 ^ 32
  | .cancel tid => tid < 2 ^ 32
  | .probeRequest => True
  | .probeResponse => True

/-! ### Packet registries (NewPacketInFromPacketType, NewPacketOutFromPacketType) -/

/-- Inbound constructor kinds, one per case of the Go switch in
NewPacketInFromPacketType. -/
inductive InPacketKind where
  | initCommandAck | initEventAck | initFail | operationResponse | event
  | startData | dataPkt | cancel | endData | probeRequest | probeResponse
  deriving DecidableEq, Repr

/-- Outbound constructor kinds, one per case of the Go switch in
NewPacketOutFromPacketType. -/
inductive OutPacketKind where
  | initCommandRequest | initEventRequest | operationRequest
  | startData | dataPkt | cancel | endData | probeRequest | probeResponse
  deriving DecidableEq, Repr

/-- Go NewPacketInFromPacketType: dispatch on the packet type; `none`
models the UnknownPacketType error return. -/
def NewPacketInFromPacketType (pt : Nat) : Option InPacketKind :=
  if pt = PKT_InitCommandAck then some .initCommandAck
  else if pt = PKT_InitEventAck then some .initEventAck
  else if pt = PKT_InitFail then some .initFail
  else if pt = PKT_OperationResponse then some .operationResponse
  else if pt = PKT_Event then some .event
  else if pt = PKT_StartData then some .startData
  else if pt = PKT_Data then some .dataPkt
  else if pt = PKT_Cancel then some .cancel
  else if pt = PKT_EndData then some .endData
  else if pt = PKT_ProbeRequest then some .probeRequest
  else if pt = PKT_ProbeResponse then some .probeResponse
  else none

/-- Go NewPacketOutFromPacketType: dispatch on the packet type; `none`
models the UnknownPacketType error return. -/
def NewPacketOutFromPacketType (pt : Nat) : Option OutPacketKind :=
  if pt = PKT_InitCommandRequest then some .initCommandRequest
  else if pt = PKT_InitEventRequest then some .initEventRequest
  else if pt = PKT_OperationRequest then some .operationRequest
  else if pt = PKT_StartData then some .startData
  else if pt = PKT_Data then some .dataPkt
  else if pt = PKT_Cancel then some .cancel
  else if pt = PKT_EndData then some .endData
  else if pt = PKT_ProbeRequest then some .probeRequest
  else if pt = PKT_ProbeResponse then some .probeResponse
  else none

/-! ### Decoder -/

inductive DecodeError where
  | shortFrame
  | unknownPacketType (pt : Nat)
  | malformedString
  | malformedFrame
  deriving DecidableEq, Repr

def errOr {α : Type} (o : Option α) (e : DecodeError) : Except DecodeError α :=
  match o with
  | some a => .ok a
  | none => .error e

/-- Per-kind payload parse: fixed fields from the frame prefix in
declaration order, strings by scanning to the null unit, trailing bytes as
opaque payload; leftover frame bytes are the excess returned to the
caller. -/
def parseInKind : InPacketKind → List Nat → Except DecodeError (Packet × List Nat)
  | .initCommandAck, frame =>
    match readLEN 4 frame with
    | none => .error .malformedFrame
    | some (cn, r1) =>
      match readN 16 r1 with
      | none => .error .malformedFrame
      | some (g, r2) =>
        match parseString r2 with
        | none => .error .malformedString
        | some (fn, r3) =>
          match readLEN 4 r3 with
          | none => .error .malformedFrame
          | some (pv, r4) => .ok (.initCommandAck cn g fn pv, r4)
  | .initEventAck, frame => .ok (.initEventAck, frame)
  | .initFail, frame =>
    match readLEN 4 frame with
    | none => .error .malformedFrame
    | some (r, rest) => .ok (.initFail r, rest)
  | .operationResponse, frame =>
    match readLEN 2 frame with
    | none => .error .malformedFrame
    | some (rc, r1) =>
      match readLEN 4 r1 with
      | none => .error .malformedFrame
      | some (tid, r2) =>
        match readLEN 4 r2 with
        | none => .error .malformedFrame
        | some (a, r3) =>
          match readLEN 4 r3 with
          | none => .error .malformedFrame
          | some (b, r4) =>
            match readLEN 4 r4 with
            | none => .error .malformedFrame
            | some (c, r5) =>
              match readLEN 4 r5 with
              | none => .error .malformedFrame
              | some (d, r6) =>
                match readLEN 4 r6 with
                | none => .error .malformedFrame
                | some (e, r7) => .ok (.operationResponse rc tid a b c d e, r7)
  | .event, frame =>
    match readLEN 2 frame with
    | none => .error .malformedFrame
    | some (ec, r1) =>
      match readLEN 4 r1 with
      | none => .error .malformedFrame
      | some (tid, r2) =>
        match readLEN 4 r2 with
        | none => .error .malformedFrame
        | some (a, r3) =>
          match readLEN 4 r3 with
          | none => .error .malformedFrame
          | some (b, r4) =>
            match readLEN 4 r4 with
            | none => .error .malformedFrame
            | some (c, r5) => .ok (.event ec tid a b c, r5)
  | .startData, frame =>
    match readLEN 4 frame with
    | none => .error .malformedFrame
    | some (tid, r1) =>
      match readLEN 8 r1 with
      | none => .error .malformedFrame
      | some (len, r2) => .ok (.startData tid len, r2)
  | .dataPkt, frame =>
    match readLEN 4 frame with
    | none => .error .malformedFrame
    | some (tid, r1) => .ok (.dataPkt tid r1, [])
  | .cancel, frame =>
    match readLEN 4 frame with
    | none => .error .malformedFrame
    | some (tid, r1) => .ok (.cancel tid, r1)
  | .endData, frame =>
    match readLEN 4 frame with
    | none => .error .malformedFrame
    | some (tid, r1) => .ok (.endData tid r1, [])
  | .probeRequest, frame => .ok (.probeRequest, frame)
  | .probeResponse, frame => .ok (.probeResponse, frame)

/-- Modelled from the spec: the full readResponse decode path. Read the
8-byte header; a header that cannot be read is a short frame; read the
`Length - 8` frame bytes; dispatch on the packet type through the inbound
registry; populate the packet. -/
def decodePacket (bs : List Nat) : Except DecodeError (Packet × List Nat) :=
  match readLEN 4 bs with
  | none => .error .shortFrame
  | some (len, r1) =>
    match readLEN 4 r1 with
    | none => .error .shortFrame
    | some (pt, r2) =>
      if len < 8 then .error .shortFrame
      else
        match readN (len - 8) r2 with
        | none => .error .shortFrame
        | some (frame, _) =>
          match NewPacketInFromPacketType pt with
          | none => .error (.unknownPacketType pt)
          | some k => parseInKind k frame

/-- Kinds the inbound registry can reconstruct. -/
def inboundRegistered (p : Packet) : Prop :=
  (NewPacketInFromPacketType (packetTypeCode p)).isSome = true

instance (us : List Nat) : Decidable (stringWF us) := by
  unfold stringWF; infer_instance

instance (bs : List Nat) : Decidable (bytesWF bs) := by
  unfold bytesWF; infer_instance

instance (p : Packet) : Decidable p.wf := by
  cases p <;> (unfold Packet.wf; infer_instance)

instance (p : Packet) : Decidable (inboundRegistered p) := by
  unfold inboundRegistered; infer_instance

/-! ### Failure-reason translation (InitFailPacket.ReasonAsError) -/

/-- Go errors: `errors.New` always yields a non-nil error. -/
inductive GoError where
  | nil
  | err (msg : String)
  deriving DecidableEq, Repr

/-- Hexadecimal rendering matching the Go format verb used in the default
branch of ReasonAsError. -/
def goHex (n : Nat) : String := "0x" ++ String.mk (Nat.toDigits 16 n)

/-- The message switch of InitFailPacket.ReasonAsError, with the two Fuji
vendor-extended wire values passed in (their numeric values are declared
outside the given sources); the Go switch compares against distinct
constants in this case order. -/
def reasonMsgWith (dbv ipv r : Nat) : String :=
  if r = FR_FailBusy then "busy: too many active connections"
  else if r = FR_FailRejectedInitiator then "rejected: device not allowed"
  else if r = FR_FailUnspecified then "reason unspecified"
  else if r = dbv then
    "fuji: invalid friendly name or camera state: allow to \x27change\x27 client or \x27reset\x27 connection"
  else if r = ipv then "fuji: unknown protocol version"
  else "unknown failure reason returned " ++ goHex r

/-- ReasonAsError parameterized by the Fuji reason values: `errors.New`
applied to the selected message. -/
def ReasonAsErrorWith (dbv ipv r : Nat) : GoError := .err (reasonMsgWith dbv ipv r)

/-- The reason message with the modelled Fuji constants plugged in. -/
def reasonMsg (r : Nat) : String :=
  reasonMsgWith FR_Fuji_DeviceBusy FR_Fuji_InvalidParameter r

/-- InitFailPacket.ReasonAsError over the modelled Fuji constants. -/
def ReasonAsError (r : Nat) : GoError := .err (reasonMsg r)

/-! ### Fuji packet-type folding (constructPacketTypeWithDataPhase) -/

/-- Fuji folds a 16-bit PTP operation code and a 16-bit data phase into
the 32-bit PacketType word: `uint32(code) shifted left 16, or data phase`,
computed in uint32 arithmetic. -/
def constructPacketTypeWithDataPhase (code dp : Nat) : Nat :=
  ((code <<< 16) ||| dp) % 2 ^ 32

/-- Fuji packet type for the no-data/data-in phase. -/
def constructPacketType (code : Nat) : Nat :=
  constructPacketTypeWithDataPhase code DP_NoDataOrDataIn

/-! ### Transaction id -/

/-- Modelled from the spec: Client.incrementTransactionId is not among the
given sources; its behavior is pinned by TestClient_incrementTransactionId:
increment in uint32 arithmetic, and the all-ones value is skipped directly
to 1, so a single call maps 0xFFFFFFFE to 1. -/
def incrementTransactionId (t : Nat) : Nat :=
  let u := (t + 1) % 2 ^ 32
  if u = 0xFFFFFFFF then 0x00000001 else u

/-- Transaction id after `n` increments from the at-rest value 0. -/
def tidAfter : Nat → Nat
  | 0 => 0
  | n + 1 => incrementTransactionId (tidAfter n)

/-! ### Client state and the generic handshake functions -/

/-- Responder identity fields the handshake fills in. -/
structure Responder where
  guid : List Nat
  friendlyName : List Nat
  protocolVersion : Nat
  deriving DecidableEq, Repr

/-- The client state the handshake functions touch: connection number,
responder identity, transaction id, and whether each TCP connection is
open. -/
structure Client where
  connectionNumber : Nat
  responder : Responder
  transactionId : Nat
  commandDataOpen : Bool
  eventOpen : Bool
  deriving DecidableEq, Repr

/-- Outcome of the command/data dial-send-wait sequence, as seen by
GenericInitCommandDataConn: a dial failure (before the connection opens),
a send or wait failure (after it opens), or a decoded packet. -/
inductive CmdDataInput where
  | dialErr
  | sendErr
  | waitErr
  | recv (p : Packet)
  deriving DecidableEq, Repr

/-- Go GenericInitCommandDataConn: dial the command/data connection, send
the init packet, wait for the response; an InitCommandAck stores the
connection number and the responder identity and succeeds; an InitFail is
translated through ReasonAsError and the connection is closed; any other
packet is an unexpected-packet error and the connection is closed; send
and wait failures return early without closing. -/
def GenericInitCommandDataConn (c : Client) (inp : CmdDataInput) :
    Except String Unit × Client :=
  match inp with
  | .dialErr => (.error "dial error", c)
  | .sendErr => (.error "send error", { c with commandDataOpen := true })
  | .waitErr => (.error "wait error", { c with commandDataOpen := true })
  | .recv p =>
    let c1 := { c with commandDataOpen := true }
    match p with
    | .initFail r => (.error (reasonMsg r), { c1 with commandDataOpen := false })
    | .initCommandAck cn g fn pv =>
        (.ok (), { c1 with
          connectionNumber := cn,
          responder := { guid := g, friendlyName := fn, protocolVersion := pv } })
    | _ => (.error "unexpected packet received", { c1 with commandDataOpen := false })

/-- Outcome of the event dial-init sequence, as seen by
GenericInitEventConn: a dial failure, the vendor hook newEventInitPacket
returning nil (no application-layer init), a send or wait failure, or a
decoded packet. -/
inductive EventInput where
  | dialErr
  | noInitPacket
  | sendErr
  | waitErr
  | recv (p : Packet)
  deriving DecidableEq, Repr

/-- Result of GenericInitEventConn: the returned error value, the client
state, and the packets written to the event connection. -/
structure EvResult where
  res : Except String Unit
  client : Client
  sent : List Packet
  deriving Repr

/-- Go GenericInitEventConn: dial the event connection; if the vendor hook
yields no init packet, succeed with nothing sent; otherwise send the
InitEventRequest carrying the stored connection number and wait; an
InitEventAck increments the transaction id once and succeeds; an InitFail
is translated and the event connection closed; any other packet is an
unexpected-packet error and the event connection closed. -/
def GenericInitEventConn (c : Client) (inp : EventInput) : EvResult :=
  match inp with
  | .dialErr => ⟨.error "dial error", c, []⟩
  | .noInitPacket => ⟨.ok (), { c with eventOpen := true }, []⟩
  | .sendErr => ⟨.error "send error", { c with eventOpen := true }, []⟩
  | .waitErr =>
      ⟨.error "wait error", { c with eventOpen := true },
        [.initEventRequest c.connectionNumber]⟩
  | .recv p =>
    let c1 := { c with eventOpen := true }
    let sent := [Packet.initEventRequest c.connectionNumber]
    match p with
    | .initFail r => ⟨.error (reasonMsg r), { c1 with eventOpen := false }, sent⟩
    | .initEventAck =>
        ⟨.ok (), { c1 with transactionId := incrementTransactionId c1.transactionId },
          sent⟩
    | _ => ⟨.error "unexpected packet received", { c1 with eventOpen := false }, sent⟩

/-! ### GenericOperationRequestRaw -/

/-- Go slice read `xs[i]`: out-of-range indexing panics, modelled as
`none`. -/
def goIndex (xs : List Nat) (i : Nat) : Option Nat := xs.get? i

/-- Go slice write `xs[i] = v`: writing past the length panics, modelled
as `none`; in particular any write into a nil slice panics. -/
def goSliceSet (xs : List (List Nat)) (i : Nat) (v : List Nat) :
    Option (List (List Nat)) :=
  if i < xs.length then some (xs.set i v) else none

/-- The five parameter fields of the operation request built by
GenericOperationRequestRaw, copied exactly as the Go source does: missing
parameters stay zero, and when exactly five parameters are supplied the
fifth field is read from `params` at index 5. -/
def genericOperationRequestParams (params : List Nat) :
    Option (Nat × Nat × Nat × Nat × Nat) :=
  (if 1 ≤ params.length then goIndex params 0 else some 0).bind fun a =>
  (if 2 ≤ params.length then goIndex params 1 else some 0).bind fun b =>
  (if 3 ≤ params.length then goIndex params 2 else some 0).bind fun c =>
  (if 4 ≤ params.length then goIndex params 3 else some 0).bind fun d =>
  (if params.length = 5 then goIndex params 5 else some 0).bind fun e =>
  some (a, b, c, d, e)

/-- Go GenericOperationRequestRaw: build the operation request from the
parameter list, send it, then store the first raw response with
`raw[0] = ...` into the nil slice `raw`. The argument `response` stands
for the raw bytes the read returns. -/
def GenericOperationRequestRaw (code : Nat) (params : List Nat)
    (response : List Nat) : Option (Nat × List (List Nat)) :=
  (genericOperationRequestParams params).bind fun _ =>
  (goSliceSet [] 0 response).bind fun raw =>
  some (code, raw)

/-- A concrete client in the at-rest state, used by witnesses. -/
def cSample : Client :=
  { connectionNumber := 0, responder := { guid := [], friendlyName := [], protocolVersion := 0 },
    transactionId := 0, commandDataOpen := false, eventOpen := false }

/-! ### Codec lemmas -/

theorem toLE_length (w : Nat) : ∀ n, (toLE w n).length = w := by
  induction w with
  | zero => intro n; rfl
  | succ w ih => intro n; simp [toLE, ih]

theorem fromLE_toLE {w : Nat} : ∀ {n : Nat}, n < 256 ^ w → fromLE (toLE w n) = n := by
  induction w with
  | zero =>
    intro n h
    simp [Nat.pow_zero] at h
    simp [h, toLE, fromLE]
  | succ w ih =>
    intro n h
    have hdiv : n / 256 < 256 ^ w := by
      apply Nat.div_lt_of_lt_mul
      rw [Nat.pow_succ] at h
      omega
    simp [toLE, fromLE, ih hdiv, Nat.mod_add_div]

theorem readLEN_append {w : Nat} : ∀ {n : Nat}, n < 256 ^ w → ∀ rest : List Nat,
    readLEN w (toLE w n ++ rest) = some (n, rest) := by
  induction w with
  | zero =>
    intro n h rest
    simp [Nat.pow_zero] at h
    simp [h, toLE, readLEN]
  | succ w ih =>
    intro n h rest
    have hdiv : n / 256 < 256 ^ w := by
      apply Nat.div_lt_of_lt_mul
      rw [Nat.pow_succ] at h
      omega
    simp [toLE, readLEN, ih hdiv rest, Nat.mod_add_div]

theorem readLEN_exact {w n : Nat} (h : n < 256 ^ w) :
    readLEN w (toLE w n) = some (n, []) := by
  have := readLEN_append h ([] : List Nat)
  simpa using this

theorem readN_append {l : List Nat} {n : Nat} (h : l.length = n) (rest : List Nat) :
    readN n (l ++ rest) = some (l, rest) := by
  simp [readN, List.take_left' h, List.drop_left' h]
  omega

theorem readN_exact {l : List Nat} {n : Nat} (h : l.length = n) :
    readN n l = some (l, []) := by
  have := readN_append h ([] : List Nat)
  simpa using this

theorem encodeString_length : ∀ us : List Nat,
    (encodeString us).length = 2 * us.length + 2 := by
  intro us
  induction us with
  | nil => rfl
  | cons u us ih => simp [encodeString, ih]; omega

theorem parseString_append : ∀ {us : List Nat}, stringWF us → ∀ rest : List Nat,
    parseString (encodeString us ++ rest) = some (us, rest) := by
  intro us
  induction us with
  | nil =>
    intro _ rest
    simp [encodeString, parseString]
  | cons u us ih =>
    intro h rest
    have hu : u ≠ 0 ∧ u < 2 ^ 16 := h u (by simp)
    have htl : stringWF us := fun v hv => h v (by simp [hv])
    have hdiv : u / 256 < 256 := by omega
    have hval : u % 256 + 256 * (u / 256 % 256) = u := by
      rw [Nat.mod_eq_of_lt hdiv, Nat.mod_add_div]
    have hne : u % 256 + 256 * (u / 256 % 256) ≠ 0 := by
      rw [hval]; exact hu.1
    simp [encodeString, parseString, hne, hval, ih htl rest, hu.1]

theorem packetTypeCode_lt (p : Packet) : packetTypeCode p < 256 ^ 4 := by
  cases p <;>
    norm_num [packetTypeCode, PKT_InitCommandRequest, PKT_InitCommandAck,
      PKT_InitEventRequest, PKT_InitEventAck, PKT_InitFail, PKT_OperationRequest,
      PKT_OperationResponse, PKT_Event, PKT_StartData, PKT_Data, PKT_Cancel,
      PKT_EndData, PKT_ProbeRequest, PKT_ProbeResponse]

theorem encodePacket_length (p : Packet) :
    (encodePacket p).length = 8 + (packetBody p).length := by
  simp [encodePacket, toLE_length]
  omega

theorem wf_frame_lt {p : Packet} (hwf : p.wf) :
    8 + (packetBody p).length < 2 ^ 32 := by
  cases p <;>
    simp only [Packet.wf, packetBody, List.length_append, toLE_length,
      encodeString_length] at hwf ⊢ <;>
    norm_num <;> omega

theorem decode_encode_aux {p : Packet} {k : InPacketKind}
    (hL : 8 + (packetBody p).length < 2 ^ 32)
    (hk : NewPacketInFromPacketType (packetTypeCode p) = some k)
    (hp : parseInKind k (packetBody p) = .ok (p, [])) :
    decodePacket (encodePacket p) = .ok (p, []) := by
  have hL' : 8 + (packetBody p).length < 256 ^ 4 := by norm_num at hL ⊢; omega
  have h8 : ¬ (8 + (packetBody p).length < 8) := by omega
  have hsub : 8 + (packetBody p).length - 8 = (packetBody p).length := by omega
  simp only [decodePacket, encodePacket, List.append_assoc, readLEN_append hL',
    readLEN_append (packetTypeCode_lt p), if_neg h8, hsub,
    readN_exact rfl, hk, hp]

theorem parse_body_initCommandAck {cn pv : Nat} {g fn : List Nat}
    (hcn : cn < 2 ^ 32) (hg : g.length = 16) (hfn : stringWF fn)
    (hpv : pv < 2 ^ 32) :
    parseInKind .initCommandAck (packetBody (.initCommandAck cn g fn pv)) =
      .ok (.initCommandAck cn g fn pv, []) := by
  have hcn' : cn < 256 ^ 4 := by norm_num at hcn ⊢; omega
  have hpv' : pv < 256 ^ 4 := by norm_num at hpv ⊢; omega
  simp only [packetBody, parseInKind, List.append_assoc, readLEN_append hcn',
    readN_append hg, parseString_append hfn, readLEN_exact hpv']

theorem parse_body_initFail {r : Nat} (hr : r < 2 ^ 32) :
    parseInKind .initFail (packetBody (.initFail r)) = .ok (.initFail r, []) := by
  have hr' : r < 256 ^ 4 := by norm_num at hr ⊢; omega
  simp only [packetBody, parseInKind, readLEN_exact hr']

theorem parse_body_operationResponse {rc tid a b c d e : Nat}
    (hrc : rc < 2 ^ 16) (htid : tid < 2 ^ 32) (ha : a < 2 ^ 32) (hb : b < 2 ^ 32)
    (hc : c < 2 ^ 32) (hd : d < 2 ^ 32) (he : e < 2 ^ 32) :
    parseInKind .operationResponse
        (packetBody (.operationResponse rc tid a b c d e)) =
      .ok (.operationResponse rc tid a b c d e, []) := by
  have hrc' : rc < 256 ^ 2 := by norm_num at hrc ⊢; omega
  have htid' : tid < 256 ^ 4 := by norm_num at htid ⊢; omega
  have ha' : a < 256 ^ 4 := by norm_num at ha ⊢; omega
  have hb' : b < 256 ^ 4 := by norm_num at hb ⊢; omega
  have hc' : c < 256 ^ 4 := by norm_num at hc ⊢; omega
  have hd' : d < 256 ^ 4 := by norm_num at hd ⊢; omega
  have he' : e < 256 ^ 4 := by norm_num at he ⊢; omega
  simp only [packetBody, parseInKind, List.append_assoc, readLEN_append hrc',
    readLEN_append htid', readLEN_append ha', readLEN_append hb',
    readLEN_append hc', readLEN_append hd', readLEN_exact he']

theorem parse_body_event {ec tid a b c : Nat}
    (hec : ec < 2 ^ 16) (htid : tid < 2 ^ 32) (ha : a < 2 ^ 32) (hb : b < 2 ^ 32)
    (hc : c < 2 ^ 32) :
    parseInKind .event (packetBody (.event ec tid a b c)) =
      .ok (.event ec tid a b c, []) := by
  have hec' : ec < 256 ^ 2 := by norm_num at hec ⊢; omega
  have htid' : tid < 256 ^ 4 := by norm_num at htid ⊢; omega
  have ha' : a < 256 ^ 4 := by norm_num at ha ⊢; omega
  have hb' : b < 256 ^ 4 := by norm_num at hb ⊢; omega
  have hc' : c < 256 ^ 4 := by norm_num at hc ⊢; omega
  simp only [packetBody, parseInKind, List.append_assoc, readLEN_append hec',
    readLEN_append htid', readLEN_append ha', readLEN_append hb',
    readLEN_exact hc']

theorem parse_body_startData {tid len : Nat} (htid : tid < 2 ^ 32)
    (hlen : len < 2 ^ 64) :
    parseInKind .startData (packetBody (.startData tid len)) =
      .ok (.startData tid len, []) := by
  have htid' : tid < 256 ^ 4 := by norm_num at htid ⊢; omega
  have hlen' : len < 256 ^ 8 := by norm_num at hlen ⊢; omega
  simp only [packetBody, parseInKind, readLEN_append htid', readLEN_exact hlen']

theorem parse_body_dataPkt {tid : Nat} {pl : List Nat} (htid : tid < 2 ^ 32) :
    parseInKind .dataPkt (packetBody (.dataPkt tid pl)) =
      .ok (.dataPkt tid pl, []) := by
  have htid' : tid < 256 ^ 4 := by norm_num at htid ⊢; omega
  simp only [packetBody, parseInKind, readLEN_append htid']

theorem parse_body_endData {tid : Nat} {pl : List Nat} (htid : tid < 2 ^ 32) :
    parseInKind .endData (packetBody (.endData tid pl)) =
      .ok (.endData tid pl, []) := by
  have htid' : tid < 256 ^ 4 := by norm_num at htid ⊢; omega
  simp only [packetBody, parseInKind, readLEN_append htid']

theorem parse_body_cancel {tid : Nat} (htid : tid < 2 ^ 32) :
    parseInKind .cancel (packetBody (.cancel tid)) = .ok (.cancel tid, []) := by
  have htid' : tid < 256 ^ 4 := by norm_num at htid ⊢; omega
  simp only [packetBody, parseInKind, readLEN_exact htid']

theorem roundtrip_main (p : Packet) (hwf : p.wf) (hin : inboundRegistered p) :
    decodePacket (encodePacket p) = .ok (p, []) := by
  have hL := wf_frame_lt hwf
  cases p with
  | initCommandRequest g fn pv => exact absurd hin (fun h => nomatch h)
  | initCommandAck cn g fn pv =>
    simp only [Packet.wf] at hwf
    exact decode_encode_aux hL rfl
      (parse_body_initCommandAck hwf.1 hwf.2.1 hwf.2.2.2.1 hwf.2.2.2.2.1)
  | initEventRequest cn => exact absurd hin (fun h => nomatch h)
  | initEventAck => exact decode_encode_aux hL rfl rfl
  | initFail r =>
    simp only [Packet.wf] at hwf
    exact decode_encode_aux hL rfl (parse_body_initFail hwf)
  | operationRequest dpi oc tid a b c d e => exact absurd hin (fun h => nomatch h)
  | operationResponse rc tid a b c d e =>
    simp only [Packet.wf] at hwf
    exact decode_encode_aux hL rfl
      (parse_body_operationResponse hwf.1 hwf.2.1 hwf.2.2.1 hwf.2.2.2.1
        hwf.2.2.2.2.1 hwf.2.2.2.2.2.1 hwf.2.2.2.2.2.2)
  | event ec tid a b c =>
    simp only [Packet.wf] at hwf
    exact decode_encode_aux hL rfl
      (parse_body_event hwf.1 hwf.2.1 hwf.2.2.1 hwf.2.2.2.1 hwf.2.2.2.2)
  | startData tid len =>
    simp only [Packet.wf] at hwf
    exact decode_encode_aux hL rfl (parse_body_startData hwf.1 hwf.2)
  | dataPkt tid pl =>
    simp only [Packet.wf] at hwf
    exact decode_encode_aux hL rfl (parse_body_dataPkt hwf.1)
  | endData tid pl =>
    simp only [Packet.wf] at hwf
    exact decode_encode_aux hL rfl (parse_body_endData hwf.1)
  | cancel tid =>
    simp only [Packet.wf] at hwf
    exact decode_encode_aux hL rfl (parse_body_cancel hwf)
  | probeRequest => exact decode_encode_aux hL rfl rfl
  | probeResponse => exact decode_encode_aux hL rfl rfl

theorem encodePacket_header_length {p : Packet} (hL : 8 + (packetBody p).length < 2 ^ 32) :
    fromLE ((encodePacket p).take 4) = (encodePacket p).length := by
  have hL' : 8 + (packetBody p).length < 256 ^ 4 := by norm_num at hL ⊢; omega
  rw [encodePacket_length]
  unfold encodePacket
  rw [List.append_assoc, List.take_left' (toLE_length 4 _), fromLE_toLE hL']

theorem encodePacket_header_type (p : Packet) :
    fromLE (((encodePacket p).drop 4).take 4) = packetTypeCode p := by
  unfold encodePacket
  rw [List.append_assoc, List.drop_left' (toLE_length 4 _),
    List.take_left' (toLE_length 4 _), fromLE_toLE (packetTypeCode_lt p)]

/-- Validation against the byte vector pinned by TestClient_sendPacket:
the InitCommandRequest of a client with GUID
e462b590-b516-474a-9db8-a465b370fabd and friendly name given by the
UTF-16 units of the test, protocol version 0x00010000. -/
theorem encode_pinned_initCommandRequest :
    encodePacket (.initCommandRequest
        [0xe4, 0x62, 0xb5, 0x90, 0xb5, 0x16, 0x47, 0x4a,
         0x9d, 0xb8, 0xa4, 0x65, 0xb3, 0x70, 0xfa, 0xbd]
        [0x77, 0x72, 0x69, 0x74, 0xE8, 0x72] 0x00010000) =
      [0x2a, 0x00, 0x00, 0x00, 0x01, 0x00, 0x00, 0x00,
       0xe4, 0x62, 0xb5, 0x90, 0xb5, 0x16, 0x47, 0x4a,
       0x9d, 0xb8, 0xa4, 0x65, 0xb3, 0x70, 0xfa, 0xbd,
       0x77, 0x00, 0x72, 0x00, 0x69, 0x00, 0x74, 0x00, 0xe8, 0x00, 0x72, 0x00,
       0x00, 0x00, 0x00, 0x00, 0x01, 0x00] := by
  rfl

/-- Validation against the byte vector pinned by TestClient_readRawResponse:
the InitCommandAck with connection number 1, responder GUID
d2d4fce6-1181-42dd-a185-5cc40ca68321, the friendly-name units of the test
and protocol version 0x00020005. -/
theorem encode_pinned_initCommandAck :
    encodePacket (.initCommandAck 1
        [0xd2, 0xd4, 0xfc, 0xe6, 0x11, 0x81, 0x42, 0xdd,
         0xa1, 0x85, 0x5c, 0xc4, 0x0c, 0xa6, 0x83, 0x21]
        [0x72, 0xE8, 0x6D, 0x6F, 0x74, 0x65] 0x00020005) =
      [0x2e, 0x00, 0x00, 0x00, 0x02, 0x00, 0x00, 0x00,
       0x01, 0x00, 0x00, 0x00,
       0xd2, 0xd4, 0xfc, 0xe6, 0x11, 0x81, 0x42, 0xdd,
       0xa1, 0x85, 0x5c, 0xc4, 0x0c, 0xa6, 0x83, 0x21,
       0x72, 0x00, 0xe8, 0x00, 0x6d, 0x00, 0x6f, 0x00, 0x74, 0x00, 0x65, 0x00,
       0x00, 0x00, 0x05, 0x00, 0x02, 0x00] := by
  rfl

/-- Validation against TestClient_readResponse: decoding that frame yields
the InitCommandAck with all fields recovered and no excess bytes. -/
theorem decode_pinned_initCommandAck :
    decodePacket
      [0x2e, 0x00, 0x00, 0x00, 0x02, 0x00, 0x00, 0x00,
       0x01, 0x00, 0x00, 0x00,
       0xd2, 0xd4, 0xfc, 0xe6, 0x11, 0x81, 0x42, 0xdd,
       0xa1, 0x85, 0x5c, 0xc4, 0x0c, 0xa6, 0x83, 0x21,
       0x72, 0x00, 0xe8, 0x00, 0x6d, 0x00, 0x6f, 0x00, 0x74, 0x00, 0x65, 0x00,
       0x00, 0x00, 0x05, 0x00, 0x02, 0x00] =
      .ok (.initCommandAck 1
        [0xd2, 0xd4, 0xfc, 0xe6, 0x11, 0x81, 0x42, 0xdd,
         0xa1, 0x85, 0x5c, 0xc4, 0x0c, 0xa6, 0x83, 0x21]
        [0x72, 0xE8, 0x6D, 0x6F, 0x74, 0x65] 0x00020005, []) := by
  rfl

/-- C1, counterexample to the claim as stated: the InitEventRequest packet
kind is encodable, but decoding the bytes produced by encoding it does not
yield the packet back: the inbound constructor registry has no entry for
its packet type, so the decoder returns the UnknownPacketType error. -/
theorem c1_counterexample :
    decodePacket (encodePacket (.initEventRequest 1)) =
      .error (.unknownPacketType PKT_InitEventRequest) := by
  rfl

/-- C1 (amended): for every well-formed packet whose kind the inbound
registry covers (the eleven inbound kinds), decoding the bytes produced by
encoding the packet yields the packet back, string fields included, with
no excess bytes; and for every well-formed packet of any kind the emitted
frame begins with an 8-byte little-endian header whose Length field equals
the total frame length and whose type field is the packet-type word, and
string fields are encoded as UTF-16LE plus a single 16-bit null terminator
counted in the length (the length formula for the two string-carrying
kinds). The three outbound-only kinds are not decodable (see the
counterexample). -/
theorem c1_codec_roundtrip (p : Packet) (hwf : p.wf) :
    (inboundRegistered p → decodePacket (encodePacket p) = .ok (p, [])) ∧
    (encodePacket p).length = 8 + (packetBody p).length ∧
    fromLE ((encodePacket p).take 4) = (encodePacket p).length ∧
    fromLE (((encodePacket p).drop 4).take 4) = packetTypeCode p ∧
    (∀ g fn pv, p = .initCommandRequest g fn pv →
      (encodePacket p).length = 8 + (16 + (2 * fn.length + 2) + 4)) ∧
    (∀ cn g fn pv, p = .initCommandAck cn g fn pv →
      (encodePacket p).length = 8 + (4 + 16 + (2 * fn.length + 2) + 4)) := by
  refine ⟨fun hin => roundtrip_main p hwf hin, encodePacket_length p,
    encodePacket_header_length (wf_frame_lt hwf), encodePacket_header_type p,
    ?_, ?_⟩
  · rintro g fn pv rfl
    simp only [Packet.wf] at hwf
    rw [encodePacket_length]
    simp [packetBody, toLE_length, encodeString_length, hwf.1]
    omega
  · rintro cn g fn pv rfl
    simp only [Packet.wf] at hwf
    rw [encodePacket_length]
    simp [packetBody, toLE_length, encodeString_length, hwf.2.1]
    omega

/-- C2: for every 16-bit PTP operation code and every data phase in the
set of three phase words, the Fuji command/data packet-type word built by
constructPacketTypeWithDataPhase equals the operation code shifted left 16
bits or-ed with the data phase, and splitting that 32-bit word back into
its upper and lower 16-bit halves recovers exactly the pair. -/
theorem c2_fuji_fold (oc dp : Nat) (hoc : oc < 2 ^ 16)
    (hdp : dp = DP_NoDataOrDataIn ∨ dp = DP_DataOut ∨ dp = DP_Unknown) :
    constructPacketTypeWithDataPhase oc dp = (oc <<< 16) ||| dp ∧
    constructPacketTypeWithDataPhase oc dp = oc * 2 ^ 16 + dp ∧
    constructPacketTypeWithDataPhase oc dp / 2 ^ 16 = oc ∧
    constructPacketTypeWithDataPhase oc dp % 2 ^ 16 = dp := by
  have hdp' : dp < 2 ^ 16 := by
    rcases hdp with h | h | h <;>
      norm_num [h, DP_NoDataOrDataIn, DP_DataOut, DP_Unknown]
  have hkey : (oc <<< 16) ||| dp = 2 ^ 16 * oc + dp := by
    rw [Nat.shiftLeft_eq, Nat.mul_comm]
    exact (Nat.mul_add_lt_is_or hdp' oc).symm
  have hlt : 2 ^ 16 * oc + dp < 2 ^ 32 := by
    norm_num at hoc hdp' ⊢
    omega
  have hval : constructPacketTypeWithDataPhase oc dp = 2 ^ 16 * oc + dp := by
    unfold constructPacketTypeWithDataPhase
    rw [hkey, Nat.mod_eq_of_lt hlt]
  refine ⟨?_, ?_, ?_, ?_⟩
  · rw [hval, hkey]
  · rw [hval, Nat.mul_comm]
  · rw [hval, Nat.mul_add_div (by norm_num), Nat.div_eq_of_lt hdp']
    omega
  · rw [hval, Nat.mul_add_mod, Nat.mod_eq_of_lt hdp']

theorem c2_fuji_fold_witness :
    0x1003 < 2 ^ 16 ∧
    (0x0002 = DP_NoDataOrDataIn ∨ 0x0002 = DP_DataOut ∨ 0x0002 = DP_Unknown) ∧
    constructPacketTypeWithDataPhase 0x1003 0x0002 = 0x10030002 ∧
    constructPacketTypeWithDataPhase 0x1003 0x0002 / 2 ^ 16 = 0x1003 ∧
    constructPacketTypeWithDataPhase 0x1003 0x0002 % 2 ^ 16 = 0x0002 := by
  have h := c2_fuji_fold 0x1003 0x0002 (by decide) (by decide)
  refine ⟨by decide, by decide, ?_, h.2.2.1, h.2.2.2⟩
  rw [h.2.1]
  norm_num

theorem increment_step {t : Nat} (h : t ≤ 0xFFFFFFFE) :
    (t ≠ 0xFFFFFFFE → incrementTransactionId t = t + 1) ∧
    (t = 0xFFFFFFFE → incrementTransactionId t = 1) ∧
    incrementTransactionId t ≠ 0 ∧
    incrementTransactionId t ≤ 0xFFFFFFFE := by
  have h32 : (2 : Nat) ^ 32 = 4294967296 := by norm_num
  have hmod : (t + 1) % 2 ^ 32 = t + 1 := Nat.mod_eq_of_lt (by omega)
  simp only [incrementTransactionId, hmod]
  by_cases hE : t + 1 = 0xFFFFFFFF
  · rw [if_pos hE]
    refine ⟨fun hne => absurd (by omega : t = 0xFFFFFFFE) hne, fun _ => rfl,
      by omega, by omega⟩
  · rw [if_neg hE]
    refine ⟨fun _ => rfl, fun he => absurd (by omega : t + 1 = 0xFFFFFFFF) hE,
      by omega, by omega⟩

theorem tidAfter_le (n : Nat) : tidAfter n ≤ 0xFFFFFFFE := by
  induction n with
  | zero => simp [tidAfter]
  | succ n ih => exact (increment_step ih).2.2.2

/-- C3: the transaction-id increment is strictly plus one away from the
wrap point, wraps from 0xFFFFFFFE to 1 in a single call, never yields 0
from any reachable value, preserves reachability, and 0 occurs only in the
initial at-rest state (tidAfter 0). -/
theorem c3_increment (t n : Nat) (h : t ≤ 0xFFFFFFFE) :
    (t ≠ 0xFFFFFFFE → incrementTransactionId t = t + 1) ∧
    (t = 0xFFFFFFFE → incrementTransactionId t = 1) ∧
    incrementTransactionId t ≠ 0 ∧
    incrementTransactionId t ≤ 0xFFFFFFFE ∧
    tidAfter 0 = 0 ∧
    tidAfter (n + 1) ≠ 0 := by
  obtain ⟨h1, h2, h3, h4⟩ := increment_step h
  exact ⟨h1, h2, h3, h4, rfl, (increment_step (tidAfter_le n)).2.2.1⟩

theorem c3_increment_witness :
    5 ≤ 0xFFFFFFFE ∧ 0xFFFFFFFE ≤ 0xFFFFFFFE ∧
    incrementTransactionId 5 = 6 ∧
    incrementTransactionId 0xFFFFFFFE = 1 ∧
    incrementTransactionId 5 ≠ 0 ∧
    tidAfter 3 ≠ 0 := by
  have h := c3_increment 5 2 (by decide)
  have h2 := c3_increment 0xFFFFFFFE 0 (by decide)
  exact ⟨by decide, by decide, h.1 (by decide), h2.2.1 rfl, h.2.2.1, h.2.2.2.2.2⟩

/-- C4, counterexample to the claim as stated: the first increment from
0xFFFFFFFE does not yield 0xFFFFFFFF; the routine skips the all-ones value
directly, as TestClient_incrementTransactionId pins. -/
theorem c4_counterexample :
    incrementTransactionId 0xFFFFFFFE ≠ 0xFFFFFFFF := by
  decide

/-- C4 (amended): from 0xFFFFFFFE, two successive calls yield 0x00000001
after the first call and 0x00000002 after the second; both 0xFFFFFFFF and
0 are skipped. -/
theorem c4_amended :
    incrementTransactionId 0xFFFFFFFE = 1 ∧
    incrementTransactionId (incrementTransactionId 0xFFFFFFFE) = 2 ∧
    incrementTransactionId 0xFFFFFFFE ≠ 0 := by
  decide

/-- C5: evaluation of the GenericOperationRequestRaw model at the points
where the claim demands totality. With five parameters supplied the copy
reads index 5 of a length-5 slice and panics; with fewer parameters the
copy pads with zero as claimed, but the write of the first raw response
into the nil result slice panics on every path that reaches it, so the
function is total on no parameter list. -/
theorem c5_operation_request_raw :
    genericOperationRequestParams [10, 20, 30, 40, 50] = none ∧
    GenericOperationRequestRaw 0x1001 [10, 20, 30, 40, 50] [0x11] = none ∧
    genericOperationRequestParams [10, 20, 30, 40] = some (10, 20, 30, 40, 0) ∧
    GenericOperationRequestRaw 0x1001 [10, 20, 30, 40] [0x11] = none ∧
    GenericOperationRequestRaw 0x1001 [] [0x11] = none ∧
    goSliceSet [] 0 [0x11] = none :=
  ⟨rfl, rfl, rfl, rfl, rfl, rfl⟩

/-- Witness for C1: the amended round-trip applied to the concrete
InitCommandAck of TestClient_readResponse. -/
theorem c1_codec_roundtrip_witness :
    Packet.wf (.initCommandAck 1
        [0xd2, 0xd4, 0xfc, 0xe6, 0x11, 0x81, 0x42, 0xdd,
         0xa1, 0x85, 0x5c, 0xc4, 0x0c, 0xa6, 0x83, 0x21]
        [0x72, 0xE8, 0x6D, 0x6F, 0x74, 0x65] 0x00020005) ∧
    inboundRegistered (.initCommandAck 1
        [0xd2, 0xd4, 0xfc, 0xe6, 0x11, 0x81, 0x42, 0xdd,
         0xa1, 0x85, 0x5c, 0xc4, 0x0c, 0xa6, 0x83, 0x21]
        [0x72, 0xE8, 0x6D, 0x6F, 0x74, 0x65] 0x00020005) ∧
    decodePacket (encodePacket (.initCommandAck 1
        [0xd2, 0xd4, 0xfc, 0xe6, 0x11, 0x81, 0x42, 0xdd,
         0xa1, 0x85, 0x5c, 0xc4, 0x0c, 0xa6, 0x83, 0x21]
        [0x72, 0xE8, 0x6D, 0x6F, 0x74, 0x65] 0x00020005)) =
      .ok (.initCommandAck 1
        [0xd2, 0xd4, 0xfc, 0xe6, 0x11, 0x81, 0x42, 0xdd,
         0xa1, 0x85, 0x5c, 0xc4, 0x0c, 0xa6, 0x83, 0x21]
        [0x72, 0xE8, 0x6D, 0x6F, 0x74, 0x65] 0x00020005, []) :=
  ⟨by decide, by decide,
    (c1_codec_roundtrip _ (by decide)).1 (by decide)⟩

/-- C6: InitFailPacket.ReasonAsError returns a non-nil error for every
reason value, maps reason 1 to the rejected message, reasons 2 and 3 to
their fixed messages, the two Fuji vendor-extended reasons to their Fuji
messages, and every unlisted reason to the unknown-failure-reason error
carrying the raw value in hexadecimal; stated for arbitrary Fuji wire
values distinct from the base reasons. -/
theorem c6_reason_mapping (dbv ipv r : Nat)
    (hd1 : dbv ≠ FR_FailRejectedInitiator) (hd2 : dbv ≠ FR_FailBusy)
    (hd3 : dbv ≠ FR_FailUnspecified)
    (hi1 : ipv ≠ FR_FailRejectedInitiator) (hi2 : ipv ≠ FR_FailBusy)
    (hi3 : ipv ≠ FR_FailUnspecified) (hdi : dbv ≠ ipv) :
    ReasonAsErrorWith dbv ipv r ≠ .nil ∧
    ReasonAsErrorWith dbv ipv FR_FailRejectedInitiator =
      .err "rejected: device not allowed" ∧
    ReasonAsErrorWith dbv ipv FR_FailBusy =
      .err "busy: too many active connections" ∧
    ReasonAsErrorWith dbv ipv FR_FailUnspecified = .err "reason unspecified" ∧
    ReasonAsErrorWith dbv ipv dbv =
      .err "fuji: invalid friendly name or camera state: allow to \x27change\x27 client or \x27reset\x27 connection" ∧
    ReasonAsErrorWith dbv ipv ipv = .err "fuji: unknown protocol version" ∧
    (r ≠ FR_FailRejectedInitiator → r ≠ FR_FailBusy → r ≠ FR_FailUnspecified →
      r ≠ dbv → r ≠ ipv →
      ReasonAsErrorWith dbv ipv r =
        .err ("unknown failure reason returned " ++ goHex r)) := by
  refine ⟨by simp [ReasonAsErrorWith], ?_, ?_, ?_, ?_, ?_, ?_⟩
  · simp [ReasonAsErrorWith, reasonMsgWith, FR_FailRejectedInitiator, FR_FailBusy,
      FR_FailUnspecified]
  · simp [ReasonAsErrorWith, reasonMsgWith, FR_FailRejectedInitiator, FR_FailBusy,
      FR_FailUnspecified]
  · simp [ReasonAsErrorWith, reasonMsgWith, FR_FailRejectedInitiator, FR_FailBusy,
      FR_FailUnspecified]
  · simp [ReasonAsErrorWith, reasonMsgWith, hd1, hd2, hd3]
  · simp [ReasonAsErrorWith, reasonMsgWith, hi1, hi2, hi3, hdi, Ne.symm hdi]
  · intro h1 h2 h3 h4 h5
    simp [ReasonAsErrorWith, reasonMsgWith, h1, h2, h3, h4, h5]

theorem c6_reason_mapping_witness :
    (FR_Fuji_DeviceBusy ≠ FR_FailRejectedInitiator ∧
     FR_Fuji_DeviceBusy ≠ FR_FailBusy ∧
     FR_Fuji_DeviceBusy ≠ FR_FailUnspecified ∧
     FR_Fuji_InvalidParameter ≠ FR_FailRejectedInitiator ∧
     FR_Fuji_InvalidParameter ≠ FR_FailBusy ∧
     FR_Fuji_InvalidParameter ≠ FR_FailUnspecified ∧
     FR_Fuji_DeviceBusy ≠ FR_Fuji_InvalidParameter) ∧
    ReasonAsError FR_FailRejectedInitiator = .err "rejected: device not allowed" ∧
    ReasonAsError 0x42 = .err ("unknown failure reason returned " ++ goHex 0x42) ∧
    ReasonAsError 0x42 = .err "unknown failure reason returned 0x42" := by
  have h := c6_reason_mapping FR_Fuji_DeviceBusy FR_Fuji_InvalidParameter 0x42
    (by decide) (by decide) (by decide) (by decide) (by decide) (by decide) (by decide)
  refine ⟨⟨by decide, by decide, by decide, by decide, by decide, by decide, by decide⟩,
    h.2.1, ?_, ?_⟩
  · exact h.2.2.2.2.2.2 (by decide) (by decide) (by decide) (by decide) (by decide)
  · show ReasonAsErrorWith FR_Fuji_DeviceBusy FR_Fuji_InvalidParameter 0x42 =
      GoError.err "unknown failure reason returned 0x42"
    rw [h.2.2.2.2.2.2 (by decide) (by decide) (by decide) (by decide) (by decide)]
    decide

/-- C7: on receipt of an InitCommandAck, GenericInitCommandDataConn
succeeds and sets exactly the connection number and the responder GUID,
friendly name and protocol version from the ack; on every other outcome it
returns an error and leaves those fields (and the transaction id)
unchanged; on an InitFail or an unexpected packet the command/data
connection ends closed; and GenericInitEventConn never mutates the
responder identity or the connection number. -/
theorem c7_cmd_data_handshake (c : Client) (cn pv : Nat) (g fn : List Nat)
    (inp : CmdDataInput) :
    ((GenericInitCommandDataConn c (.recv (.initCommandAck cn g fn pv))).1 = .ok () ∧
     (GenericInitCommandDataConn c (.recv (.initCommandAck cn g fn pv))).2 =
       { c with commandDataOpen := true, connectionNumber := cn,
                responder := { guid := g, friendlyName := fn, protocolVersion := pv } }) ∧
    ((∀ cn2 pv2 g2 fn2, inp ≠ .recv (.initCommandAck cn2 g2 fn2 pv2)) →
      (∃ e, (GenericInitCommandDataConn c inp).1 = .error e) ∧
      (GenericInitCommandDataConn c inp).2.connectionNumber = c.connectionNumber ∧
      (GenericInitCommandDataConn c inp).2.responder = c.responder ∧
      (GenericInitCommandDataConn c inp).2.transactionId = c.transactionId) ∧
    (∀ p2 : Packet, (∀ cn2 pv2 g2 fn2, p2 ≠ .initCommandAck cn2 g2 fn2 pv2) →
      (GenericInitCommandDataConn c (.recv p2)).2.commandDataOpen = false) ∧
    (∀ einp, (GenericInitEventConn c einp).client.responder = c.responder ∧
             (GenericInitEventConn c einp).client.connectionNumber = c.connectionNumber) := by
  refine ⟨⟨rfl, rfl⟩, ?_, ?_, ?_⟩
  · intro h
    cases inp with
    | dialErr => exact ⟨⟨_, rfl⟩, rfl, rfl, rfl⟩
    | sendErr => exact ⟨⟨_, rfl⟩, rfl, rfl, rfl⟩
    | waitErr => exact ⟨⟨_, rfl⟩, rfl, rfl, rfl⟩
    | recv p =>
      cases p <;> first
        | exact absurd rfl (h _ _ _ _)
        | exact ⟨⟨_, rfl⟩, rfl, rfl, rfl⟩
  · intro p2 h
    cases p2 <;> first
      | exact absurd rfl (h _ _ _ _)
      | rfl
  · intro einp
    cases einp with
    | dialErr => exact ⟨rfl, rfl⟩
    | noInitPacket => exact ⟨rfl, rfl⟩
    | sendErr => exact ⟨rfl, rfl⟩
    | waitErr => exact ⟨rfl, rfl⟩
    | recv p => cases p <;> exact ⟨rfl, rfl⟩

theorem c7_cmd_data_handshake_witness :
    (GenericInitCommandDataConn cSample
        (.recv (.initCommandAck 7 [1, 2] [3] 5))).1 = .ok () ∧
    (GenericInitCommandDataConn cSample
        (.recv (.initCommandAck 7 [1, 2] [3] 5))).2.responder =
      { guid := [1, 2], friendlyName := [3], protocolVersion := 5 } ∧
    (∃ e, (GenericInitCommandDataConn cSample .dialErr).1 = .error e) ∧
    (GenericInitCommandDataConn cSample .dialErr).2.responder = cSample.responder ∧
    (GenericInitCommandDataConn cSample (.recv (.initFail 1))).2.commandDataOpen = false := by
  have h := c7_cmd_data_handshake cSample 7 5 [1, 2] [3] .dialErr
  have hne : ∀ cn2 pv2 g2 fn2,
      CmdDataInput.dialErr ≠ .recv (.initCommandAck cn2 g2 fn2 pv2) :=
    fun _ _ _ _ hx => nomatch hx
  refine ⟨h.1.1, by rw [h.1.2], (h.2.1 hne).1, (h.2.1 hne).2.2.1, ?_⟩
  exact h.2.2.1 (.initFail 1) (fun _ _ _ _ hx => nomatch hx)

/-- C8: GenericInitCommandDataConn leaves the transaction id at 0 on
every path; GenericInitEventConn performs exactly one increment, and only
on the path that receives an InitEventAck; hence after a full successful
handshake from the at-rest state the transaction id equals 1. -/
theorem c8_tid_after_handshake (c : Client) (cn pv : Nat) (g fn : List Nat)
    (h0 : c.transactionId = 0) :
    (∀ inp, ((GenericInitCommandDataConn c inp).2).transactionId = 0) ∧
    (∀ c2 : Client,
      (GenericInitEventConn c2 (.recv .initEventAck)).client.transactionId =
        incrementTransactionId c2.transactionId) ∧
    (∀ (c2 : Client) inp2, inp2 ≠ EventInput.recv .initEventAck →
      (GenericInitEventConn c2 inp2).client.transactionId = c2.transactionId) ∧
    (GenericInitEventConn
        ((GenericInitCommandDataConn c (.recv (.initCommandAck cn g fn pv))).2)
        (.recv .initEventAck)).client.transactionId = 1 := by
  refine ⟨?_, fun c2 => rfl, ?_, ?_⟩
  · intro inp
    cases inp with
    | dialErr => exact h0
    | sendErr => exact h0
    | waitErr => exact h0
    | recv p => cases p <;> exact h0
  · intro c2 inp2 hne
    cases inp2 with
    | dialErr => rfl
    | noInitPacket => rfl
    | sendErr => rfl
    | waitErr => rfl
    | recv p =>
      cases p <;> first
        | exact absurd rfl hne
        | rfl
  · show incrementTransactionId
      ((GenericInitCommandDataConn c (.recv (.initCommandAck cn g fn pv))).2).transactionId = 1
    have ht : ((GenericInitCommandDataConn c
        (.recv (.initCommandAck cn g fn pv))).2).transactionId = 0 := h0
    rw [ht]
    rfl

theorem c8_tid_after_handshake_witness :
    cSample.transactionId = 0 ∧
    (GenericInitEventConn
        ((GenericInitCommandDataConn cSample
            (.recv (.initCommandAck 1 [1] [2] 3))).2)
        (.recv .initEventAck)).client.transactionId = 1 ∧
    ((GenericInitCommandDataConn cSample
        (.recv (.initCommandAck 1 [1] [2] 3))).2).transactionId = 0 :=
  ⟨rfl, (c8_tid_after_handshake cSample 1 3 [1] [2] rfl).2.2.2,
    (c8_tid_after_handshake cSample 1 3 [1] [2] rfl).1 _⟩

/-- C9: NewPacketInFromPacketType returns a constructor of the matching
kind exactly for the eleven registered inbound packet types and the
UnknownPacketType error for every other value, including the
outbound-only InitCommandRequest, InitEventRequest and OperationRequest;
NewPacketOutFromPacketType likewise covers exactly its nine outbound
types and errors on everything else. -/
theorem c9_registries (pt : Nat) :
    NewPacketInFromPacketType PKT_InitCommandAck = some .initCommandAck ∧
    NewPacketInFromPacketType PKT_InitEventAck = some .initEventAck ∧
    NewPacketInFromPacketType PKT_InitFail = some .initFail ∧
    NewPacketInFromPacketType PKT_OperationResponse = some .operationResponse ∧
    NewPacketInFromPacketType PKT_Event = some .event ∧
    NewPacketInFromPacketType PKT_StartData = some .startData ∧
    NewPacketInFromPacketType PKT_Data = some .dataPkt ∧
    NewPacketInFromPacketType PKT_Cancel = some .cancel ∧
    NewPacketInFromPacketType PKT_EndData = some .endData ∧
    NewPacketInFromPacketType PKT_ProbeRequest = some .probeRequest ∧
    NewPacketInFromPacketType PKT_ProbeResponse = some .probeResponse ∧
    NewPacketInFromPacketType PKT_InitCommandRequest = none ∧
    NewPacketInFromPacketType PKT_InitEventRequest = none ∧
    NewPacketInFromPacketType PKT_OperationRequest = none ∧
    (pt ≠ 2 → pt ≠ 4 → pt ≠ 5 → pt ≠ 7 → pt ≠ 8 → pt ≠ 9 → pt ≠ 10 → pt ≠ 11 →
      pt ≠ 12 → pt ≠ 13 → pt ≠ 14 → NewPacketInFromPacketType pt = none) ∧
    NewPacketOutFromPacketType PKT_InitCommandRequest = some .initCommandRequest ∧
    NewPacketOutFromPacketType PKT_InitEventRequest = some .initEventRequest ∧
    NewPacketOutFromPacketType PKT_OperationRequest = some .operationRequest ∧
    NewPacketOutFromPacketType PKT_StartData = some .startData ∧
    NewPacketOutFromPacketType PKT_Data = some .dataPkt ∧
    NewPacketOutFromPacketType PKT_Cancel = some .cancel ∧
    NewPacketOutFromPacketType PKT_EndData = some .endData ∧
    NewPacketOutFromPacketType PKT_ProbeRequest = some .probeRequest ∧
    NewPacketOutFromPacketType PKT_ProbeResponse = some .probeResponse ∧
    NewPacketOutFromPacketType PKT_InitCommandAck = none ∧
    NewPacketOutFromPacketType PKT_InitEventAck = none ∧
    NewPacketOutFromPacketType PKT_InitFail = none ∧
    NewPacketOutFromPacketType PKT_OperationResponse = none ∧
    NewPacketOutFromPacketType PKT_Event = none ∧
    (pt ≠ 1 → pt ≠ 3 → pt ≠ 6 → pt ≠ 9 → pt ≠ 10 → pt ≠ 11 → pt ≠ 12 → pt ≠ 13 →
      pt ≠ 14 → NewPacketOutFromPacketType pt = none) := by
  refine ⟨rfl, rfl, rfl, rfl, rfl, rfl, rfl, rfl, rfl, rfl, rfl, rfl, rfl, rfl, ?_,
    rfl, rfl, rfl, rfl, rfl, rfl, rfl, rfl, rfl, rfl, rfl, rfl, rfl, rfl, ?_⟩
  · intro h2 h4 h5 h7 h8 h9 h10 h11 h12 h13 h14
    simp [NewPacketInFromPacketType, PKT_InitCommandAck, PKT_InitEventAck,
      PKT_InitFail, PKT_OperationResponse, PKT_Event, PKT_StartData, PKT_Data,
      PKT_Cancel, PKT_EndData, PKT_ProbeRequest, PKT_ProbeResponse,
      h2, h4, h5, h7, h8, h9, h10, h11, h12, h13, h14]
  · intro h1 h3 h6 h9 h10 h11 h12 h13 h14
    simp [NewPacketOutFromPacketType, PKT_InitCommandRequest, PKT_InitEventRequest,
      PKT_OperationRequest, PKT_StartData, PKT_Data, PKT_Cancel, PKT_EndData,
      PKT_ProbeRequest, PKT_ProbeResponse, h1, h3, h6, h9, h10, h11, h12, h13, h14]

theorem c9_registries_witness :
    NewPacketInFromPacketType 0xFF = none ∧
    NewPacketOutFromPacketType 0xFF = none ∧
    NewPacketInFromPacketType PKT_InitCommandRequest = none ∧
    NewPacketOutFromPacketType PKT_InitCommandRequest = some .initCommandRequest := by
  obtain ⟨-, -, -, -, -, -, -, -, -, -, -, hreq, -, -, hinneg, hout1, -, -, -, -, -,
    -, -, -, -, -, -, -, -, houtneg⟩ := c9_registries 0xFF
  exact ⟨hinneg (by decide) (by decide) (by decide) (by decide) (by decide) (by decide)
      (by decide) (by decide) (by decide) (by decide) (by decide),
    houtneg (by decide) (by decide) (by decide) (by decide) (by decide) (by decide)
      (by decide) (by decide) (by decide),
    hreq, hout1⟩

/-- C10: when the vendor hook newEventInitPacket returns nil,
GenericInitEventConn opens the event connection, sends no packet, returns
success, and leaves every other piece of client state, the transaction id
included, unchanged. -/
theorem c10_nil_event_init (c : Client) :
    (GenericInitEventConn c .noInitPacket).res = .ok () ∧
    (GenericInitEventConn c .noInitPacket).sent = [] ∧
    (GenericInitEventConn c .noInitPacket).client = { c with eventOpen := true } ∧
    (GenericInitEventConn c .noInitPacket).client.transactionId = c.transactionId ∧
    (GenericInitEventConn c .noInitPacket).client.eventOpen = true :=
  ⟨rfl, rfl, rfl, rfl, rfl⟩

end PtpIp
